import Mathlib

/-!
Verification of the approval ledger and transfer-resolution components of a
NEP-246 multi-token (ERC-1155 style) contract, shallowly embedded from
`src/multi_token/approval/approval_impl.rs`, `src/multi_token/approval/mod.rs`
and `src/multi_token/core/resolver.rs`.

Machine integers (`u128` amounts, `u64` approval ids, `usize` counts) are
modelled as `Nat`; the only arithmetic the embedded code performs on them is
`+ 1` on the per-token approval count, which the cap bounds far below `2^64`,
and the subtraction `old_number - 1` in `internal_revoke`, whose underflow is
modelled as a panic, matching the overflow-checked builds used for NEAR
contracts.

NEAR platform semantics: a contract method that panics aborts and commits no
state change.  `MTResult` records the state at the panic point, so that the
"checks happen before writes" property of the code itself is visible, and the
`call_*` wrappers apply the platform-level revert.

The token and account identifier types are strings, as in the source
(`TokenId = String`, `AccountId` a validated string wrapper); the persistent
`LookupMap`/`HashMap` collections are modelled as association lists with
unique keys, written and read only through `mapLookup`/`mapInsert`/`mapErase`.
-/

abbrev AccountId := String
abbrev TokenId := String

/-- `Approval { amount: u128, approval_id: u64 }` from `token.rs`. -/
structure Approval where
  amount : Nat
  approval_id : Nat
deriving DecidableEq

/-- `MAX_APPROVALS_PER_TOKEN` (approval/mod.rs line 16). -/
def MAX_APPROVALS_PER_TOKEN : Nat := 99

/-- Association-list map standing in for `HashMap` / `LookupMap`:
`mapLookup` is `get`. -/
def mapLookup (k : String) : List (String × α) → Option α
  | [] => none
  | (k', v) :: rest => if k' = k then some v else mapLookup k rest

/-- `insert`: replaces the value of an existing key in place, otherwise
appends the new binding. -/
def mapInsert (k : String) (v : α) : List (String × α) → List (String × α)
  | [] => [(k, v)]
  | (k', v') :: rest =>
    if k' = k then (k, v) :: rest else (k', v') :: mapInsert k v rest

/-- `remove`: drops the binding of `k`, if any. -/
def mapErase (k : String) : List (String × α) → List (String × α)
  | [] => []
  | (k', v') :: rest => if k' = k then rest else (k', v') :: mapErase k rest

/-- The fields of the `MultiToken` struct that the approval ledger and the
transfer-resolution protocol touch, as used by approval_impl.rs (the struct
itself lives in `core_impl.rs`; field names and `Option`-ness are exactly as
dereferenced there: the three approval structures are optional extensions). -/
structure MultiToken where
  owner_by_id : List (TokenId × AccountId)
  balances_per_token : List (TokenId × List (AccountId × Nat))
  approvals_by_id : Option (List (TokenId × List (AccountId × Approval)))
  approvals_number_by_id : Option (List (TokenId × Nat))
  next_approval_id_by_id : Option (List (TokenId × Nat))
deriving DecidableEq

/-- The distinct ways the embedded code can panic. -/
inductive Err where
  | extensionNotSupported
  | unwrapNone
  | capExceeded
  | tokenNotExist
  | unauthorized
  | notEnoughBalance
  | indexOutOfBounds
  | arithmeticUnderflow
  | oneYoctoRequired
  | todoUnimplemented
deriving DecidableEq

/-- Outcome of a state-mutating contract function: either a new state and a
value, or a panic together with the state as it stood when the panic fired. -/
inductive MTResult (α : Type) where
  | ok : MultiToken → α → MTResult α
  | panic : Err → MultiToken → MTResult α
deriving DecidableEq

/-- Outcome of a read-only (`&self`) contract function: a value or a panic. -/
inductive QueryResult (α : Type) where
  | ok : α → QueryResult α
  | panic : Err → QueryResult α
deriving DecidableEq

/-- `MultiToken::internal_approve` (approval_impl.rs lines 28-77), with the
caller (`env::predecessor_account_id`, checked by `unauthorized_assert`) made
explicit.  Storage-deposit accounting (`refund_deposit`, an external
collaborator per the spec) is not modelled.  Note that line 74's
`current_next_id += 1` increments a local copy that is then dropped: the
`next_approval_id_by_id` map is never written back.  Also note line 62 re-reads
the count with a plain `unwrap()` (where line 33 used `unwrap_or_default`),
and lines 63 and 70 respectively bump the count and compute the storage charge
independently of whether the spender already had an entry. -/
def internal_approve (s : MultiToken) (caller account_id : AccountId)
    (token_id : TokenId) (amount : Nat) : MTResult Approval :=
  match s.approvals_by_id with
  | none => .panic .extensionNotSupported s
  | some approvals_by_id =>
    match s.approvals_number_by_id with
    | none => .panic .unwrapNone s
    | some approvals_number_by_id =>
      let approvals_number := (mapLookup token_id approvals_number_by_id).getD 0
      if approvals_number + 1 < MAX_APPROVALS_PER_TOKEN then
        match mapLookup token_id s.owner_by_id with
        | none => .panic .tokenNotExist s
        | some owner_id =>
          if caller = owner_id then
            match mapLookup token_id s.balances_per_token with
            | none => .panic .unwrapNone s
            | some balances =>
              let balance := (mapLookup owner_id balances).getD 0
              if amount ≤ balance then
                match s.next_approval_id_by_id with
                | none => .panic .extensionNotSupported s
                | some next_ids =>
                  match mapLookup token_id next_ids with
                  | none => .panic .extensionNotSupported s
                  | some current_next_id =>
                    let new_approval : Approval := ⟨amount, current_next_id⟩
                    let approvals := (mapLookup token_id approvals_by_id).getD []
                    let approvals' := mapInsert account_id new_approval approvals
                    match mapLookup token_id approvals_number_by_id with
                    | none => .panic .unwrapNone s
                    | some old_number =>
                      .ok { s with
                              approvals_number_by_id :=
                                some (mapInsert token_id (old_number + 1)
                                  approvals_number_by_id),
                              approvals_by_id :=
                                some (mapInsert token_id approvals' approvals_by_id) }
                        new_approval
              else .panic .notEnoughBalance s
          else .panic .unauthorized s
      else .panic .capExceeded s

/-- `MultiToken::internal_revoke` (approval_impl.rs lines 79-99).  The
per-token map obtained from `approvals.get(&token_id)` is an owned copy, so
the `remove` on line 93 only persists through the `is_empty` branch (lines
96-98), which drops the whole token key; line 94 decrements the count
unconditionally (checked subtraction: count 0 underflows). -/
def internal_revoke (s : MultiToken) (caller : AccountId) (token_id : TokenId)
    (account_id : AccountId) : MTResult Unit :=
  match mapLookup token_id s.owner_by_id with
  | none => .panic .unwrapNone s
  | some owner =>
    if caller = owner then
      match s.approvals_by_id with
      | none => .panic .extensionNotSupported s
      | some approvals =>
        match mapLookup token_id approvals with
        | none => .panic .extensionNotSupported s
        | some approvals_by_token =>
          match s.approvals_number_by_id with
          | none => .panic .unwrapNone s
          | some approvals_number =>
            let old_number := (mapLookup token_id approvals_number).getD 0
            let approvals_by_token' := mapErase account_id approvals_by_token
            if old_number = 0 then .panic .arithmeticUnderflow s
            else
              .ok { s with
                      approvals_number_by_id :=
                        some (mapInsert token_id (old_number - 1) approvals_number),
                      approvals_by_id :=
                        some (if approvals_by_token'.isEmpty then
                                mapErase token_id approvals
                              else approvals) } ()
    else .panic .unauthorized s

/-- The arguments of the `ext_approval_receiver::mt_on_approve` promise
created at approval_impl.rs lines 119-130. -/
structure OnApproveCall where
  token_ids : List TokenId
  amounts : List Nat
  owner_id : AccountId
  approval_ids : List Nat
  msg : String
deriving DecidableEq

/-- The `token_ids … enumerate … map` loop of `mt_approve`
(approval_impl.rs lines 114-116): sequential grants, indexing `amounts_to`
positionally (an out-of-range index panics), collecting the approval ids. -/
def approveLoop (caller account_id : AccountId) (amounts : List Nat) :
    List TokenId → Nat → MultiToken → MTResult (List Nat)
  | [], _, s => .ok s []
  | token_id :: rest, idx, s =>
    match amounts[idx]? with
    | none => .panic .indexOutOfBounds s
    | some amount =>
      match internal_approve s caller account_id token_id amount with
      | .panic e s' => .panic e s'
      | .ok s' ap =>
        match approveLoop caller account_id amounts rest (idx + 1) s' with
        | .panic e s'' => .panic e s''
        | .ok s'' ids => .ok s'' (ap.approval_id :: ids)

/-- `mt_approve` (approval_impl.rs lines 103-131): `assert_one_yocto`, then
the batch of `internal_approve` calls, then the optional `mt_on_approve`
promise carrying the whole batch's approval ids. -/
def mt_approve (s : MultiToken) (caller : AccountId) (deposit : Nat)
    (account_id : AccountId) (token_ids : List TokenId) (amounts : List Nat)
    (msg : Option String) : MTResult (List Nat × Option OnApproveCall) :=
  if deposit = 1 then
    match approveLoop caller account_id amounts token_ids 0 s with
    | .panic e s' => .panic e s'
    | .ok s' ids =>
      .ok s' (ids, msg.map (fun m => ⟨token_ids, amounts, account_id, ids, m⟩))
  else .panic .oneYoctoRequired s

/-- NEAR call-level view of `mt_approve`: a panic anywhere in the method
aborts the call and commits none of its state changes. -/
def call_mt_approve (s : MultiToken) (caller : AccountId) (deposit : Nat)
    (account_id : AccountId) (token_ids : List TokenId) (amounts : List Nat)
    (msg : Option String) : MultiToken × Option (List Nat) :=
  match mt_approve s caller deposit account_id token_ids amounts msg with
  | .ok s' r => (s', some r.1)
  | .panic _ _ => (s, none)

/-- `mt_revoke_all` (approval_impl.rs lines 140-142): the body is `todo!()`,
which panics unconditionally before touching any state. -/
def mt_revoke_all (s : MultiToken) (_token_ids : List TokenId) : MTResult Unit :=
  .panic .todoUnimplemented s

/-- One element of the `map` closure inside `mt_is_approved`
(approval_impl.rs lines 155-173): an existing entry for the spender reaches
`approval_ids.as_ref().unwrap()` (line 160) before anything else, then the
equality test `approve.amount.eq(&amounts_to[idx])` (line 162), then the
optional id comparison; a missing entry yields `false`. -/
def isApprovedElem (approvals : List (TokenId × List (AccountId × Approval)))
    (approved_account_id : AccountId) (amounts : List Nat)
    (approval_ids : Option (List Nat)) (idx : Nat) (token_id : TokenId) :
    QueryResult Bool :=
  let by_token := (mapLookup token_id approvals).getD []
  match mapLookup approved_account_id by_token with
  | some approve =>
    match approval_ids with
    | none => .panic .unwrapNone
    | some ids =>
      match amounts[idx]? with
      | none => .panic .indexOutOfBounds
      | some amt =>
        if approve.amount = amt then
          match ids[idx]? with
          | some a => .ok (approve.approval_id == a)
          | none => .ok true
        else .ok false
  | none => .ok false

/-- The element loop of `mt_is_approved`, short-circuiting at the first
panicking element exactly as the Rust iterator does. -/
def isApprovedList (approvals : List (TokenId × List (AccountId × Approval)))
    (approved_account_id : AccountId) (amounts : List Nat)
    (approval_ids : Option (List Nat)) :
    List TokenId → Nat → QueryResult (List Bool)
  | [], _ => .ok []
  | token_id :: rest, idx =>
    match isApprovedElem approvals approved_account_id amounts approval_ids
        idx token_id with
    | .panic e => .panic e
    | .ok b =>
      match isApprovedList approvals approved_account_id amounts approval_ids
          rest (idx + 1) with
      | .panic e => .panic e
      | .ok bs => .ok (b :: bs)

/-- `mt_is_approved` (approval_impl.rs lines 144-177).  Note that line 175
returns `results.contains(&false)` — the presence of a failing element, not
the conjunction of the results. -/
def mt_is_approved (s : MultiToken) (token_ids : List TokenId)
    (approved_account_id : AccountId) (amounts : List Nat)
    (approval_ids : Option (List Nat)) : QueryResult Bool :=
  match s.approvals_by_id with
  | none => .panic .extensionNotSupported
  | some approvals =>
    match isApprovedList approvals approved_account_id amounts approval_ids
        token_ids 0 with
    | .panic e => .panic e
    | .ok results => .ok (results.contains false)

/-- `TokenApproval` (approval/mod.rs lines 20-23); the singleton
`HashMap::from([pair])` becomes a one-element association list. -/
structure TokenApproval where
  approval_owner_id : AccountId
  approved_account_ids : List (AccountId × Approval)
deriving DecidableEq

/-- `mt_token_approvals` (approval_impl.rs lines 192-202).  Note line 195:
`approvals.get(&token_id).unwrap()` panics when the token has no approvals
entry; otherwise `skip(from_index).take(limit)` paginates. -/
def mt_token_approvals (s : MultiToken) (token_id : TokenId)
    (from_index : Nat) (limit : Nat) : QueryResult (List TokenApproval) :=
  match s.approvals_by_id with
  | none => .panic .extensionNotSupported
  | some approvals =>
    match mapLookup token_id s.owner_by_id with
    | none => .panic .unwrapNone
    | some owner =>
      match mapLookup token_id approvals with
      | none => .panic .unwrapNone
      | some by_token =>
        .ok (((by_token.drop from_index).take limit).map fun p => ⟨owner, [p]⟩)

/-- Balance read: `balances_per_token.get(&token_id) … .get(&account)`,
absent entries reading as `0`. -/
def getBalance (s : MultiToken) (token_id : TokenId) (account : AccountId) : Nat :=
  (mapLookup account ((mapLookup token_id s.balances_per_token).getD [])).getD 0

/-- Balance write for one account of one token. -/
def setBalance (s : MultiToken) (token_id : TokenId) (account : AccountId)
    (v : Nat) : MultiToken :=
  { s with
      balances_per_token :=
        mapInsert token_id
          (mapInsert account v ((mapLookup token_id s.balances_per_token).getD []))
          s.balances_per_token }

/-- The approval currently stored for `account` on `token_id`, if any. -/
def getApproval (s : MultiToken) (token_id : TokenId) (account : AccountId) :
    Option Approval :=
  mapLookup account ((mapLookup token_id (s.approvals_by_id.getD [])).getD [])

/-- Write back an approval entry for `account` on `token_id`, keeping the
redundant per-token count equal to the new set's size (spec invariant I1). -/
def restoreApproval (s : MultiToken) (token_id : TokenId) (account : AccountId)
    (a : Approval) : MultiToken :=
  let abi := s.approvals_by_id.getD []
  let set' := mapInsert account a ((mapLookup token_id abi).getD [])
  { s with
      approvals_by_id := some (mapInsert token_id set' abi),
      approvals_number_by_id :=
        some (mapInsert token_id set'.length (s.approvals_number_by_id.getD [])) }

/-- Remove the approval entry of `account` on `token_id`, keeping the
per-token count equal to the new set's size (spec invariant I1). -/
def consumeApproval (s : MultiToken) (token_id : TokenId) (account : AccountId) :
    MultiToken :=
  let abi := s.approvals_by_id.getD []
  let set' := mapErase account ((mapLookup token_id abi).getD [])
  { s with
      approvals_by_id := some (mapInsert token_id set' abi),
      approvals_number_by_id :=
        some (mapInsert token_id set'.length (s.approvals_number_by_id.getD [])) }

/-- Modelled from the spec: the plain transfer entry point lives in
`core/core_impl.rs`, which is not among the sources here; this definition
follows spec section 4.2.  On entry the protocol validates authorization — the
caller is the sending owner, or carries a matching approval (an
`is_approved`-equivalent check of amount and, when supplied, approval id) —
and the sender's balance; a failed check mutates nothing.  On success the
sender is debited, the receiver credited, and a consumed approval removed. -/
def internal_transfer (s : MultiToken) (caller sender_id receiver_id : AccountId)
    (token_id : TokenId) (amount : Nat) (approval_id : Option Nat) :
    MTResult Unit :=
  let authorized : Bool :=
    if caller = sender_id then true
    else
      match getApproval s token_id caller with
      | none => false
      | some ap =>
        (match approval_id with
         | some i => ap.approval_id == i
         | none => true) && decide (amount ≤ ap.amount)
  if authorized then
    if getBalance s token_id sender_id < amount then .panic .notEnoughBalance s
    else
      let s1 := setBalance s token_id sender_id
        (getBalance s token_id sender_id - amount)
      let s2 := setBalance s1 token_id receiver_id
        (getBalance s1 token_id receiver_id + amount)
      .ok (if caller = sender_id then s2 else consumeApproval s2 token_id caller) ()
  else .panic .unauthorized s

/-- Modelled from the spec: one element of the rollback performed by
`mt_resolve_transfer` when the receiver's acknowledgment call itself failed to
execute (spec section 4.2, `RolledBack`): the provisional credit is moved back
from the receiver to the sender, and the consumed approval — snapshotted as a
`(account, approval_id, amount)` triplet per resolver.rs — is reinstated in
full at its original amount and original id. -/
def rollbackOne (sender_id receiver_id : AccountId) (token_id : TokenId)
    (amount : Nat) (appr : Option (AccountId × Nat × Nat)) (s : MultiToken) :
    MultiToken :=
  let s1 := setBalance s token_id receiver_id
    (getBalance s token_id receiver_id - amount)
  let s2 := setBalance s1 token_id sender_id
    (getBalance s1 token_id sender_id + amount)
  match appr with
  | none => s2
  | some (account, aid, amt) => restoreApproval s2 token_id account ⟨amt, aid⟩

/-- Modelled from the spec: element-wise rollback of a whole batch. -/
def rollbackAll (sender_id receiver_id : AccountId) :
    List TokenId → List Nat → List (AccountId × Nat × Nat) → MultiToken →
      MultiToken
  | [], _, _, s => s
  | _ :: _, [], _, s => s
  | token_id :: rest, amount :: arest, apprs, s =>
    rollbackAll sender_id receiver_id rest arest apprs.tail
      (rollbackOne sender_id receiver_id token_id amount apprs.head? s)

/-- Modelled from the spec: one element of the commit path of
`mt_resolve_transfer` (spec section 4.2): the receiver reported `used ≤
amount`; full use commits as-is, partial use returns the unused remainder to
the sender and reinstates an approval of exactly that remainder under the
original id (the spec leaves id reuse open; reuse is chosen here).  Returns
the amount the receiver kept. -/
def commitOne (sender_id receiver_id : AccountId) (token_id : TokenId)
    (amount : Nat) (appr : Option (AccountId × Nat × Nat)) (used : Nat)
    (s : MultiToken) : MultiToken × Nat :=
  let used' := min used amount
  let unused := amount - used'
  if unused = 0 then (s, used')
  else
    let s1 := setBalance s token_id receiver_id
      (getBalance s token_id receiver_id - unused)
    let s2 := setBalance s1 token_id sender_id
      (getBalance s1 token_id sender_id + unused)
    match appr with
    | none => (s2, used')
    | some (account, aid, _) => (restoreApproval s2 token_id account ⟨unused, aid⟩, used')

/-- Modelled from the spec: element-wise commit of a whole batch; a missing
reported value counts as full use. -/
def commitAll (sender_id receiver_id : AccountId) :
    List TokenId → List Nat → List (AccountId × Nat × Nat) → List Nat →
      MultiToken → MultiToken × List Nat
  | [], _, _, _, s => (s, [])
  | _ :: _, [], _, _, s => (s, [])
  | token_id :: rest, amount :: arest, apprs, useds, s =>
    let r := commitOne sender_id receiver_id token_id amount apprs.head?
      (useds.head?.getD amount) s
    let rr := commitAll sender_id receiver_id rest arest apprs.tail useds.tail r.1
    (rr.1, r.2 :: rr.2)

/-- Modelled from the spec: `mt_resolve_transfer` (declared in
`core/resolver.rs` lines 55-62; its implementation lives in `core_impl.rs`,
which is not among the sources here).  `outcome` is the settled result of the
receiver's `mt_on_transfer` promise: `none` when the acknowledgment call
itself failed to execute — in which case every element of the transfer is
rolled back — and `some useds` when it reported per-token used amounts, in
which case each element commits (fully or partially).  Returns the per-token
amounts the receiver kept. -/
def mt_resolve_transfer (s : MultiToken) (sender_id receiver_id : AccountId)
    (token_ids : List TokenId) (amounts : List Nat)
    (approvals : Option (List (AccountId × Nat × Nat)))
    (outcome : Option (List Nat)) : MultiToken × List Nat :=
  match outcome with
  | none =>
    (rollbackAll sender_id receiver_id token_ids amounts (approvals.getD []) s,
     token_ids.map fun _ => 0)
  | some useds =>
    commitAll sender_id receiver_id token_ids amounts (approvals.getD []) useds s

theorem mapLookup_insert_self (k : String) (v : α) (m : List (String × α)) :
    mapLookup k (mapInsert k v m) = some v := by
  induction m with
  | nil => simp [mapInsert, mapLookup]
  | cons p rest ih =>
    obtain ⟨k', v'⟩ := p
    by_cases h : k' = k
    · simp [mapInsert, mapLookup, h]
    · simp [mapInsert, mapLookup, h, ih]

theorem mapLookup_insert_of_ne (q k : String) (v : α) (m : List (String × α))
    (h : q ≠ k) : mapLookup q (mapInsert k v m) = mapLookup q m := by
  induction m with
  | nil => simp [mapInsert, mapLookup, Ne.symm h]
  | cons p rest ih =>
    obtain ⟨k', v'⟩ := p
    by_cases hk : k' = k
    · subst hk
      simp [mapInsert, mapLookup, Ne.symm h]
    · simp [mapInsert, mapLookup, hk, ih]

theorem getBalance_setBalance_self (s : MultiToken) (t : TokenId)
    (a : AccountId) (v : Nat) : getBalance (setBalance s t a v) t a = v := by
  simp [getBalance, setBalance, mapLookup_insert_self]

theorem getBalance_setBalance_other (s : MultiToken) (t : TokenId)
    (a b : AccountId) (v : Nat) (h : b ≠ a) :
    getBalance (setBalance s t a v) t b = getBalance s t b := by
  simp [getBalance, setBalance, mapLookup_insert_self,
    mapLookup_insert_of_ne _ _ _ _ h]

theorem getBalance_restoreApproval (s : MultiToken) (t t' : TokenId)
    (c b : AccountId) (ap : Approval) :
    getBalance (restoreApproval s t c ap) t' b = getBalance s t' b := rfl

theorem getApproval_restoreApproval_self (s : MultiToken) (t : TokenId)
    (c : AccountId) (ap : Approval) :
    getApproval (restoreApproval s t c ap) t c = some ap := by
  simp [getApproval, restoreApproval, mapLookup_insert_self]

/-- Every panic branch of `internal_approve` fires before the single write at
the end of the function: the state recorded at the panic is the input state. -/
theorem approve_panic_state_eq (s : MultiToken) (caller account_id : AccountId)
    (token_id : TokenId) (amount : Nat) (e : Err) (s' : MultiToken)
    (h : internal_approve s caller account_id token_id amount = .panic e s') :
    s' = s := by
  simp only [internal_approve] at h
  repeat' split at h
  all_goals cases h <;> rfl

/-- Every panic branch of `internal_revoke` fires before its writes. -/
theorem revoke_panic_state_eq (s : MultiToken) (caller : AccountId)
    (token_id : TokenId) (account_id : AccountId) (e : Err) (s' : MultiToken)
    (h : internal_revoke s caller token_id account_id = .panic e s') :
    s' = s := by
  simp only [internal_revoke] at h
  repeat' split at h
  all_goals cases h <;> rfl

/-- The spec-modelled transfer entry point checks authorization and balance
before mutating anything. -/
theorem transfer_panic_state_eq (s : MultiToken)
    (caller sender_id receiver_id : AccountId) (token_id : TokenId)
    (amount : Nat) (approval_id : Option Nat) (e : Err) (s' : MultiToken)
    (h : internal_transfer s caller sender_id receiver_id token_id amount
        approval_id = .panic e s') : s' = s := by
  simp only [internal_transfer] at h
  repeat' split at h
  all_goals cases h <;> rfl

/-- A successful pass of the `mt_approve` batch loop produces one approval id
per requested token id. -/
theorem approveLoop_ok_length (caller account_id : AccountId)
    (amounts : List Nat) (token_ids : List TokenId) :
    ∀ (idx : Nat) (s s' : MultiToken) (ids : List Nat),
      approveLoop caller account_id amounts token_ids idx s = .ok s' ids →
      ids.length = token_ids.length := by
  induction token_ids with
  | nil =>
    intro idx s s' ids h
    simp only [approveLoop] at h
    cases h
    rfl
  | cons tid rest ih =>
    intro idx s s' ids h
    simp only [approveLoop] at h
    split at h
    · cases h
    · split at h
      · cases h
      · split at h
        · cases h
        · cases h
          simp [ih _ _ _ _ (by assumption)]

/-- At the NEAR call level, a panicking `mt_approve` commits nothing. -/
theorem call_mt_approve_none_state (s : MultiToken) (caller : AccountId)
    (deposit : Nat) (account_id : AccountId) (token_ids : List TokenId)
    (amounts : List Nat) (msg : Option String)
    (h : (call_mt_approve s caller deposit account_id token_ids amounts msg).2
        = none) :
    (call_mt_approve s caller deposit account_id token_ids amounts msg).1 = s := by
  cases hm : mt_approve s caller deposit account_id token_ids amounts msg with
  | ok s2 r => simp [call_mt_approve, hm] at h
  | panic e s2 => simp [call_mt_approve, hm]

/-- At the NEAR call level, a committing `mt_approve` granted every token id. -/
theorem call_mt_approve_some_length (s : MultiToken) (caller : AccountId)
    (deposit : Nat) (account_id : AccountId) (token_ids : List TokenId)
    (amounts : List Nat) (msg : Option String) (ids : List Nat)
    (h : (call_mt_approve s caller deposit account_id token_ids amounts msg).2
        = some ids) :
    ids.length = token_ids.length := by
  cases hm : mt_approve s caller deposit account_id token_ids amounts msg with
  | panic e s2 => simp [call_mt_approve, hm] at h
  | ok s2 r =>
    simp only [call_mt_approve, hm, Option.some.injEq] at h
    simp only [mt_approve] at hm
    split at hm
    · split at hm
      · cases hm
      · rename_i s3 ids0 heq
        cases hm
        simp only [Prod.fst] at h
        subst h
        exact approveLoop_ok_length caller account_id amounts token_ids 0 s _ _ heq
    · cases hm

/-- A seeded single-token state: token `"t"` owned by `"o"` with balance
1000, approval extension enabled, no approvals yet, count and next approval
id both present with value 0. -/
def sBase : MultiToken :=
  { owner_by_id := [("t", "o")]
    balances_per_token := [("t", [("o", 1000)])]
    approvals_by_id := some []
    approvals_number_by_id := some [("t", 0)]
    next_approval_id_by_id := some [("t", 0)] }

/-- `sBase` after the grant `internal_approve(o, alice, t, 100)`. -/
def sAlice : MultiToken :=
  { owner_by_id := [("t", "o")]
    balances_per_token := [("t", [("o", 1000)])]
    approvals_by_id := some [("t", [("alice", ⟨100, 0⟩)])]
    approvals_number_by_id := some [("t", 1)]
    next_approval_id_by_id := some [("t", 0)] }

/-- `sAlice` after the further grant `internal_approve(o, bob, t, 100)`. -/
def sAliceBob : MultiToken :=
  { owner_by_id := [("t", "o")]
    balances_per_token := [("t", [("o", 1000)])]
    approvals_by_id := some [("t", [("alice", ⟨100, 0⟩), ("bob", ⟨100, 0⟩)])]
    approvals_number_by_id := some [("t", 2)]
    next_approval_id_by_id := some [("t", 0)] }

/-- `sAlice` after the overwriting grant `internal_approve(o, alice, t, 50)`. -/
def sAliceOver : MultiToken :=
  { owner_by_id := [("t", "o")]
    balances_per_token := [("t", [("o", 1000)])]
    approvals_by_id := some [("t", [("alice", ⟨50, 0⟩)])]
    approvals_number_by_id := some [("t", 2)]
    next_approval_id_by_id := some [("t", 0)] }

/-- `sAlice` after `internal_revoke(o, t, bob)` — bob had no entry, yet the
count dropped to 0. -/
def sAliceBadCount : MultiToken :=
  { owner_by_id := [("t", "o")]
    balances_per_token := [("t", [("o", 1000)])]
    approvals_by_id := some [("t", [("alice", ⟨100, 0⟩)])]
    approvals_number_by_id := some [("t", 0)]
    next_approval_id_by_id := some [("t", 0)] }

/-- `sAlice` after `internal_revoke(o, t, alice)`: the token key is gone. -/
def sNoApprovals : MultiToken :=
  { owner_by_id := [("t", "o")]
    balances_per_token := [("t", [("o", 1000)])]
    approvals_by_id := some []
    approvals_number_by_id := some [("t", 0)]
    next_approval_id_by_id := some [("t", 0)] }

/-- Two seeded tokens of one owner, with too small a balance on `"u"` for the
batch grant used in the C4 witness. -/
def sTwo : MultiToken :=
  { owner_by_id := [("t", "o"), ("u", "o")]
    balances_per_token := [("t", [("o", 1000)]), ("u", [("o", 10)])]
    approvals_by_id := some []
    approvals_number_by_id := some [("t", 0), ("u", 0)]
    next_approval_id_by_id := some [("t", 0), ("u", 0)] }

/-- `MAX_APPROVALS_PER_TOKEN - 1 = 98` distinct approved spenders. -/
def capSet : List (AccountId × Approval) :=
  (List.range 98).map fun i => ("a" ++ Nat.repr i, ⟨1, 0⟩)

/-- A token sitting exactly at the spec's allowed maximum of
`MAX_APPROVALS_PER_TOKEN - 1` approval entries, count in sync. -/
def sCap : MultiToken :=
  { owner_by_id := [("t", "o")]
    balances_per_token := [("t", [("o", 1000)])]
    approvals_by_id := some [("t", capSet)]
    approvals_number_by_id := some [("t", 98)]
    next_approval_id_by_id := some [("t", 0)] }

/-- A post-transfer state for the C8 witness: 60 units were provisionally
moved from sender `"o"` to receiver `"rcv"` and the consumed approval of
`"spender"` (amount 60, id 7) was removed. -/
def sResolve : MultiToken :=
  { owner_by_id := [("t", "o")]
    balances_per_token := [("t", [("o", 40), ("rcv", 60)])]
    approvals_by_id := some [("t", [])]
    approvals_number_by_id := some [("t", 0)]
    next_approval_id_by_id := some [("t", 0)] }

/-- Claim C1: the claim says `mt_is_approved` returns false for an absent
spender and that after a grant of 100 a query for 100 returns true while a
query for 150 returns false.  The code violates this: line 175 of
approval_impl.rs returns `results.contains(&false)`, the negation of the
intended conjunction, so after granting alice 100 on the round-trip state
`sAlice`, the matching query returns false, while the amount-mismatch query
and the absent-spender query both return true. -/
theorem c1_is_approved_inverted :
    internal_approve sBase "o" "alice" "t" 100 = .ok sAlice ⟨100, 0⟩ ∧
    mt_is_approved sAlice ["t"] "alice" [100] (some [0]) = .ok false ∧
    mt_is_approved sAlice ["t"] "alice" [150] (some [0]) = .ok true ∧
    mt_is_approved sAlice ["t"] "bob" [100] (some [0]) = .ok true := by
  decide

/-- Claim C2: the claim says every successful grant returns a strictly larger
approval id than any previously issued for the token and advances the
per-token counter.  The code violates this: line 74 of approval_impl.rs
increments a dropped local copy, so two successive successful grants on
`"t"` both return approval id 0 and `next_approval_id_by_id` never changes. -/
theorem c2_approval_id_not_advanced :
    internal_approve sBase "o" "alice" "t" 100 = .ok sAlice ⟨100, 0⟩ ∧
    internal_approve sAlice "o" "bob" "t" 100 = .ok sAliceBob ⟨100, 0⟩ ∧
    sAliceBob.next_approval_id_by_id = sBase.next_approval_id_by_id := by
  decide

/-- Claim C3: the claim says `approval_count[t] = |approvals[t]|` after every
operation.  The code violates this on an overwriting grant: line 63 of
approval_impl.rs increments the count unconditionally, so re-granting alice
leaves one entry in the set but a stored count of 2. -/
theorem c3_count_diverges_on_overwrite :
    internal_approve sAlice "o" "alice" "t" 50 = .ok sAliceOver ⟨50, 0⟩ ∧
    mapLookup "t" (sAliceOver.approvals_number_by_id.getD []) = some 2 ∧
    ((mapLookup "t" (sAliceOver.approvals_by_id.getD [])).getD []).length = 1 := by
  decide

/-- Claim C4: a grant, revoke or transfer request that fails a precondition
(authorization, balance, cap) mutates no ledger state — every panic branch of
`internal_approve`, `internal_revoke` and the spec-modelled
`internal_transfer` fires with the input state intact — and a batch grant is
atomic at the NEAR call level: `call_mt_approve` either returns one approval
id per requested token id or leaves the ledger exactly as it was. -/
theorem c4_failed_preconditions_mutate_nothing :
    (∀ (s : MultiToken) (caller account_id : AccountId) (token_id : TokenId)
        (amount : Nat) (e : Err) (s' : MultiToken),
        internal_approve s caller account_id token_id amount = .panic e s' →
        s' = s) ∧
    (∀ (s : MultiToken) (caller : AccountId) (token_id : TokenId)
        (account_id : AccountId) (e : Err) (s' : MultiToken),
        internal_revoke s caller token_id account_id = .panic e s' → s' = s) ∧
    (∀ (s : MultiToken) (caller sender_id receiver_id : AccountId)
        (token_id : TokenId) (amount : Nat) (approval_id : Option Nat)
        (e : Err) (s' : MultiToken),
        internal_transfer s caller sender_id receiver_id token_id amount
          approval_id = .panic e s' → s' = s) ∧
    (∀ (s : MultiToken) (caller : AccountId) (deposit : Nat)
        (account_id : AccountId) (token_ids : List TokenId)
        (amounts : List Nat) (msg : Option String),
        (call_mt_approve s caller deposit account_id token_ids amounts msg).2
            = none →
        (call_mt_approve s caller deposit account_id token_ids amounts msg).1
            = s) ∧
    (∀ (s : MultiToken) (caller : AccountId) (deposit : Nat)
        (account_id : AccountId) (token_ids : List TokenId)
        (amounts : List Nat) (msg : Option String) (ids : List Nat),
        (call_mt_approve s caller deposit account_id token_ids amounts msg).2
            = some ids →
        ids.length = token_ids.length) :=
  ⟨approve_panic_state_eq, revoke_panic_state_eq, transfer_panic_state_eq,
   call_mt_approve_none_state, call_mt_approve_some_length⟩

/-- Witness for C4: on `sTwo` the batch grant for tokens `"t"` (enough
balance) and `"u"` (balance 10 < 50) fails as a whole and the call-level
state is exactly the input state. -/
theorem c4_failed_preconditions_mutate_nothing_witness :
    (call_mt_approve sTwo "o" 1 "alice" ["t", "u"] [100, 50] none).2 = none ∧
    (call_mt_approve sTwo "o" 1 "alice" ["t", "u"] [100, 50] none).1 = sTwo :=
  ⟨by decide,
   c4_failed_preconditions_mutate_nothing.2.2.2.1 sTwo "o" 1 "alice"
     ["t", "u"] [100, 50] none (by decide)⟩

/-- Claim C5: the claim says revoking a spender with no entry is a no-op that
succeeds and leaves the approval set and the count unchanged.  The code
violates the count part: line 94 of approval_impl.rs decrements the count
unconditionally, so revoking absent `"bob"` on `sAlice` succeeds and leaves
the approval set unchanged but drops the stored count from 1 to 0 (and a
token with no approvals entry at all would panic in `expect_extension`
instead of succeeding). -/
theorem c5_revoke_missing_spender_changes_count :
    internal_revoke sAlice "o" "t" "bob" = .ok sAliceBadCount () ∧
    mapLookup "bob" ((mapLookup "t" (sAlice.approvals_by_id.getD [])).getD [])
      = none ∧
    sAliceBadCount.approvals_by_id = sAlice.approvals_by_id ∧
    sAliceBadCount.approvals_number_by_id ≠ sAlice.approvals_number_by_id := by
  decide

/-- Claim C6: revoking the last remaining spender does remove the token's key
from the approvals map, and an out-of-bounds `from_index` on a token that has
approvals does return an empty sequence; but the claim's middle part fails:
`mt_token_approvals` on a token with no approvals entry panics on the
`unwrap()` at line 195 of approval_impl.rs instead of returning an empty
sequence (the trait documentation in approval/mod.rs promises "an empty array
if there are no approvals"). -/
theorem c6_query_page_panics_after_last_revoke :
    internal_revoke sAlice "o" "t" "alice" = .ok sNoApprovals () ∧
    mapLookup "t" (sNoApprovals.approvals_by_id.getD []) = none ∧
    mt_token_approvals sNoApprovals "t" 0 10 = .panic .unwrapNone ∧
    mt_token_approvals sAlice "t" 5 10 = .ok [] := by
  decide

/-- Claim C7: when a token already holds `MAX_APPROVALS_PER_TOKEN - 1`
distinct approved spenders (count in sync with the set), granting a further
distinct spender fails with the approval-cap panic and leaves the state
untouched — the check at line 36 of approval_impl.rs fires before any
insertion. -/
theorem c7_cap_blocks_further_approval (s : MultiToken)
    (caller spender : AccountId) (t : TokenId) (amt : Nat)
    (abi : List (TokenId × List (AccountId × Approval)))
    (cnts : List (TokenId × Nat))
    (habi : s.approvals_by_id = some abi)
    (hcnt : s.approvals_number_by_id = some cnts)
    (hn : mapLookup t cnts = some (MAX_APPROVALS_PER_TOKEN - 1))
    (hsize : ((mapLookup t abi).getD []).length = MAX_APPROVALS_PER_TOKEN - 1)
    (hnew : mapLookup spender ((mapLookup t abi).getD []) = none) :
    internal_approve s caller spender t amt = .panic .capExceeded s := by
  simp [internal_approve, habi, hcnt, hn, MAX_APPROVALS_PER_TOKEN]

/-- Witness for C7: `sCap` holds 98 distinct spenders on `"t"` with count 98,
and the grant to the new spender `"newguy"` fails with the cap panic, state
unchanged. -/
theorem c7_cap_blocks_further_approval_witness :
    mapLookup "t" [("t", (98 : Nat))] = some (MAX_APPROVALS_PER_TOKEN - 1) ∧
    ((mapLookup "t" [("t", capSet)]).getD []).length
      = MAX_APPROVALS_PER_TOKEN - 1 ∧
    mapLookup "newguy" ((mapLookup "t" [("t", capSet)]).getD []) = none ∧
    internal_approve sCap "o" "newguy" "t" 5 = .panic .capExceeded sCap :=
  ⟨by decide, by decide, by decide,
   c7_cap_blocks_further_approval sCap "o" "newguy" "t" 5 [("t", capSet)]
     [("t", 98)] rfl rfl (by decide) (by decide) (by decide)⟩

/-- Claim C8: if the receiver's acknowledgment call fails to execute
(`outcome = none`), `mt_resolve_transfer` undoes the whole transfer — the
receiver's provisional credit is removed, the sender's balance restored — and
the consumed approval is reinstated at its original amount and original
approval id; the resolution reports 0 kept. -/
theorem c8_resolve_rollback_restores (s : MultiToken)
    (sender_id receiver_id account : AccountId) (t : TokenId)
    (amount aid amt : Nat) (hne : sender_id ≠ receiver_id)
    (hb : amount ≤ getBalance s t receiver_id) :
    getBalance (mt_resolve_transfer s sender_id receiver_id [t] [amount]
        (some [(account, aid, amt)]) none).1 t receiver_id
      = getBalance s t receiver_id - amount ∧
    getBalance (mt_resolve_transfer s sender_id receiver_id [t] [amount]
        (some [(account, aid, amt)]) none).1 t sender_id
      = getBalance s t sender_id + amount ∧
    getApproval (mt_resolve_transfer s sender_id receiver_id [t] [amount]
        (some [(account, aid, amt)]) none).1 t account = some ⟨amt, aid⟩ ∧
    (mt_resolve_transfer s sender_id receiver_id [t] [amount]
        (some [(account, aid, amt)]) none).2 = [0] := by
  refine ⟨?_, ?_, ?_, rfl⟩ <;>
    simp [mt_resolve_transfer, rollbackAll, rollbackOne,
      getBalance_restoreApproval, getApproval_restoreApproval_self,
      getBalance_setBalance_self,
      getBalance_setBalance_other _ _ _ _ _ hne,
      getBalance_setBalance_other _ _ _ _ _ (Ne.symm hne)]

/-- Witness for C8: on the post-transfer state `sResolve` (60 units moved
from `"o"` to `"rcv"`, approval of `"spender"` for 60 at id 7 consumed), a
failed acknowledgment rolls the balances back to 0 and 100 and reinstates
`"spender"`'s approval at amount 60, id 7. -/
theorem c8_resolve_rollback_restores_witness :
    getBalance (mt_resolve_transfer sResolve "o" "rcv" ["t"] [60]
        (some [("spender", 7, 60)]) none).1 "t" "rcv"
      = getBalance sResolve "t" "rcv" - 60 ∧
    getBalance (mt_resolve_transfer sResolve "o" "rcv" ["t"] [60]
        (some [("spender", 7, 60)]) none).1 "t" "o"
      = getBalance sResolve "t" "o" + 60 ∧
    getApproval (mt_resolve_transfer sResolve "o" "rcv" ["t"] [60]
        (some [("spender", 7, 60)]) none).1 "t" "spender" = some ⟨60, 7⟩ ∧
    (mt_resolve_transfer sResolve "o" "rcv" ["t"] [60]
        (some [("spender", 7, 60)]) none).2 = [0] :=
  c8_resolve_rollback_restores sResolve "o" "rcv" "spender" "t" 60 7 60
    (by decide) (by decide)

/-- Claim C9: the claim says `mt_revoke_all`, called by the owner of a token
with approvals, removes every approval entry and returns successfully.  The
code violates this: its body is `todo!()` (approval_impl.rs line 141), which
panics unconditionally on every call. -/
theorem c9_revoke_all_panics :
    mt_revoke_all sAlice ["t"] = .panic .todoUnimplemented sAlice := rfl

/-- Claim C10: when `approval_ids` is omitted and the queried spender has an
entry whose stored amount equals the queried amount, `mt_is_approved` reaches
`approval_ids.as_ref().unwrap()` (approval_impl.rs line 160) and panics
instead of returning a boolean. -/
theorem c10_is_approved_without_ids_panics (s : MultiToken)
    (abi : List (TokenId × List (AccountId × Approval)))
    (t : TokenId) (acct : AccountId) (amt : Nat) (ap : Approval)
    (habi : s.approvals_by_id = some abi)
    (hap : mapLookup acct ((mapLookup t abi).getD []) = some ap)
    (hamt : ap.amount = amt) :
    mt_is_approved s [t] acct [amt] none = .panic .unwrapNone := by
  simp [mt_is_approved, habi, isApprovedList, isApprovedElem, hap]

/-- Witness for C10: on `sAlice` (alice approved for 100 on `"t"`), querying
amount 100 with `approval_ids = none` panics. -/
theorem c10_is_approved_without_ids_panics_witness :
    sAlice.approvals_by_id = some [("t", [("alice", ⟨100, 0⟩)])] ∧
    mapLookup "alice"
      ((mapLookup "t" [("t", [("alice", (⟨100, 0⟩ : Approval))])]).getD [])
      = some ⟨100, 0⟩ ∧
    mt_is_approved sAlice ["t"] "alice" [100] none = .panic .unwrapNone :=
  ⟨rfl, by decide,
   c10_is_approved_without_ids_panics sAlice _ "t" "alice" 100 ⟨100, 0⟩ rfl
     (by decide) rfl⟩
